import Mathlib

/-!
# UDP source channel controller (`plugins/channeltx/udpsource/udpsourcegui.cpp`)

A shallow embedding of the controller class `UDPSourceGUI`: its settings
aggregate, the two message queues, the apply guard, the edit slots, the
message drain and the periodic tick.

Modelling conventions.

* `Real` values and `double` values are exact rationals (`ℚ`).
* C++ `int` / `qint64` values are `Int`; a conversion to a narrower machine
  type is written out as an explicit wrap (`toQuint16`, `wrapInt32`).
* A line-edit widget is represented by what its text parses to
  (`none` when `toInt(&ok)` / `toDouble(&ok)` reports `ok = false`).
* A widget setter is a write to the display record `Ui`.
* A message queue is a list, oldest message first; `push` appends.
-/

namespace UDPSource

/-- Sample formats of `UDPSourceSettings::SampleFormat`, in index order. -/
inductive SampleFormat where
  | FormatSnLE
  | FormatNFM
  | FormatLSB
  | FormatUSB
  | FormatAM
deriving DecidableEq, Repr

/-- The settings aggregate `m_settings` (the fields this source file reads or writes). -/
structure UDPSourceSettings where
  inputFrequencyOffset : Int
  inputSampleRate : ℚ
  rfBandwidth : ℚ
  sampleFormat : SampleFormat
  fmDeviation : Int
  amModFactor : ℚ
  gainIn : ℚ
  gainOut : ℚ
  squelchEnabled : Bool
  squelch : ℚ
  squelchGate : ℚ
  channelMute : Bool
  autoRWBalance : Bool
  stereoInput : Bool
  udpAddress : String
  udpPort : Nat
  rgbColor : Nat
deriving DecidableEq, Repr

/-- Messages travelling on either queue.  `MsgConfigureChannelizer` and
`MsgConfigureUDPSource` are the two kinds this file creates or matches; every
other kind is `other`. -/
inductive Message where
  | MsgConfigureChannelizer (sampleRate : ℚ) (frequencyOffset : Int)
  | MsgConfigureUDPSource (settings : UDPSourceSettings) (force : Bool)
  | other (kind : Nat)
deriving DecidableEq, Repr

/-- An opaque byte sequence (`QByteArray`). -/
abbrev QByteArray := List Nat

/-- The channel marker `m_channelMarker`. -/
structure ChannelMarker where
  centerFrequency : Int
  bandwidth : ℚ
  color : Nat
  visible : Bool
  highlighted : Bool
deriving DecidableEq, Repr

/-- The widgets of `ui` this file writes, each holding the value last put on display. -/
structure Ui where
  deltaFrequency : Int
  sampleRate : Option ℚ
  glSpectrumSampleRate : ℚ
  rfBandwidth : Option ℚ
  fmDeviation : Option Int
  fmDeviationEnabled : Bool
  amModPercent : Option Int
  amModPercentEnabled : Bool
  sampleFormat : Int
  channelMute : Bool
  channelMuteGreen : Bool
  autoRWBalance : Bool
  stereoInput : Bool
  stereoInputEnabled : Bool
  gainInText : ℚ
  gainIn : Int
  gainOutText : ℚ
  gainOut : Int
  squelchText : Option ℚ
  squelch : Int
  squelchGateText : Int
  squelchGate : Int
  localUDPAddress : String
  localUDPPort : Option Int
  applyBtnEnabled : Bool
  channelPower : ℚ
  inputPower : ℚ
  bufferGaugeNegative : Int
  bufferGaugePositive : Int
  bufferRWBalanceText : Int
deriving DecidableEq, Repr

/-- Code of the repository that this source file calls but does not contain. -/
structure Collaborators where
  /-- The value `UDPSourceSettings::resetToDefaults` installs. -/
  defaults : UDPSourceSettings
  /-- The in-place decoder `UDPSourceSettings::deserialize`: success flag and the aggregate it leaves. -/
  settingsDeserialize : UDPSourceSettings → QByteArray → Bool × UDPSourceSettings
  /-- The encoder `UDPSourceSettings::serialize`. -/
  settingsSerialize : UDPSourceSettings → QByteArray
  /-- The readout `asDouble()` of a moving average, as a function of the samples fed so far. -/
  asDouble : List ℚ → ℚ
  /-- The conversion `CalcDb::dbPower`. -/
  dbPower : ℚ → ℚ

/-- The controller object `UDPSourceGUI`.  `workerQueue` is the input message
queue of `m_udpSource`, `inputMessageQueue` the controller's own.  A moving
average is represented by the samples fed to it, oldest first. -/
structure GUI where
  settings : UDPSourceSettings
  doApplySettings : Bool
  rfBandwidthChanged : Bool
  tickCount : Nat
  channelPowerAvg : List ℚ
  inPowerAvg : List ℚ
  channelMarker : ChannelMarker
  ui : Ui
  workerQueue : List Message
  inputMessageQueue : List Message
  resetReadIndexCount : Nat
deriving DecidableEq, Repr

/-- What the worker's query surface returns during one tick. -/
structure WorkerReadings where
  magSq : ℚ
  inMagSq : ℚ
  bufferGauge : Int
  squelchOpen : Bool
deriving DecidableEq, Repr

/-! ## Machine arithmetic -/

/-- Conversion of an `int` to `quint16`. -/
def toQuint16 (v : Int) : Nat := (v % 65536).toNat

/-- Two's-complement wrap of an integer into the `int32_t` range. -/
def wrapInt32 (v : Int) : Int := (v + 2147483648) % 4294967296 - 2147483648

/-- The C function `roundf`: nearest integer, halves away from zero. -/
def roundf (x : ℚ) : Int := if 0 ≤ x then ⌊x + 1 / 2⌋ else -⌊-x + 1 / 2⌋

/-! ## Settings helpers -/

/-- Modelled from the spec: `UDPSourceSettings::resetToDefaults` is not in this
source file; it "restores the entire aggregate to its construction-time values". -/
def UDPSourceSettings.resetToDefaults (env : Collaborators) (_s : UDPSourceSettings) :
    UDPSourceSettings :=
  env.defaults

/-! ## Guard, apply, display -/

/-- `UDPSourceGUI::blockApplySettings`. -/
def blockApplySettings (block : Bool) (st : GUI) : GUI :=
  { st with doApplySettings := !block }

/-- `UDPSourceGUI::applySettings`.  A call written without an argument passes `false`. -/
def applySettings (force : Bool) (st : GUI) : GUI :=
  if st.doApplySettings then
    let msgChan := Message.MsgConfigureChannelizer st.settings.inputSampleRate
      st.settings.inputFrequencyOffset
    let st1 := { st with workerQueue := st.workerQueue ++ [msgChan] }
    let message := Message.MsgConfigureUDPSource st1.settings force
    let st2 := { st1 with workerQueue := st1.workerQueue ++ [message] }
    { st2 with ui := { st2.ui with applyBtnEnabled := false } }
  else
    st

/-- `UDPSourceGUI::setSampleFormatIndex`. -/
def setSampleFormatIndex (sampleFormat : SampleFormat) (ui : Ui) : Ui :=
  match sampleFormat with
  | .FormatSnLE =>
    { ui with sampleFormat := 0, fmDeviationEnabled := false, stereoInput := true,
              stereoInputEnabled := false }
  | .FormatNFM =>
    { ui with sampleFormat := 1, fmDeviationEnabled := true, stereoInputEnabled := true }
  | .FormatLSB =>
    { ui with sampleFormat := 2, fmDeviationEnabled := false, stereoInputEnabled := true }
  | .FormatUSB =>
    { ui with sampleFormat := 3, fmDeviationEnabled := false, stereoInputEnabled := true }
  | .FormatAM =>
    { ui with sampleFormat := 4, fmDeviationEnabled := false, stereoInputEnabled := true }

/-- The widget writes of `displaySettings` between its two `blockApplySettings` calls. -/
def displayWidgets (s : UDPSourceSettings) (ui : Ui) : Ui :=
  let ui1 := { ui with
    deltaFrequency := s.inputFrequencyOffset,
    sampleRate := some (roundf s.inputSampleRate),
    glSpectrumSampleRate := s.inputSampleRate,
    rfBandwidth := some (roundf s.rfBandwidth),
    fmDeviation := some s.fmDeviation,
    amModPercent := some (roundf (s.amModFactor * 100)) }
  let ui2 := setSampleFormatIndex s.sampleFormat ui1
  { ui2 with
    channelMute := s.channelMute,
    autoRWBalance := s.autoRWBalance,
    stereoInput := s.stereoInput,
    gainInText := s.gainIn,
    gainIn := roundf (s.gainIn * 10),
    gainOutText := s.gainOut,
    gainOut := roundf (s.gainOut * 10),
    squelchText := if s.squelchEnabled then some s.squelch else none,
    squelch := roundf s.squelch,
    squelchGateText := roundf (s.squelchGate * 1000),
    squelchGate := roundf (s.squelchGate * 100),
    localUDPAddress := s.udpAddress,
    localUDPPort := some s.udpPort,
    applyBtnEnabled := false }

/-- `UDPSourceGUI::displaySettings`. -/
def displaySettings (st : GUI) : GUI :=
  let st1 := { st with channelMarker := { st.channelMarker with
    centerFrequency := st.settings.inputFrequencyOffset,
    bandwidth := st.settings.rfBandwidth,
    color := st.settings.rgbColor } }
  let st2 := blockApplySettings true st1
  let st3 := { st2 with ui := displayWidgets st2.settings st2.ui }
  blockApplySettings false st3

/-! ## Reset, persistence, messages -/

/-- `UDPSourceGUI::resetToDefaults`. -/
def resetToDefaults (env : Collaborators) (st : GUI) : GUI :=
  let st1 := { st with settings := st.settings.resetToDefaults env }
  let st2 := displaySettings st1
  applySettings true st2

/-- `UDPSourceGUI::serialize`. -/
def serialize (env : Collaborators) (st : GUI) : QByteArray :=
  env.settingsSerialize st.settings

/-- `UDPSourceGUI::deserialize`: the returned flag and the state left behind. -/
def deserialize (env : Collaborators) (data : QByteArray) (st : GUI) : Bool × GUI :=
  let r := env.settingsDeserialize st.settings data
  let st1 := { st with settings := r.2 }
  if r.1 then
    let st2 := displaySettings st1
    (true, applySettings true st2)
  else
    (false, resetToDefaults env st1)

/-- `UDPSourceGUI::handleMessage`: the returned flag and the state left behind. -/
def handleMessage (message : Message) (st : GUI) : Bool × GUI :=
  match message with
  | .MsgConfigureUDPSource cfg _ =>
    let st1 := { st with settings := cfg }
    let st2 := blockApplySettings true st1
    let st3 := displaySettings st2
    (true, blockApplySettings false st3)
  | _ => (false, st)

/-- The loop of `handleSourceMessages` over the messages still queued: each
iteration pops the head and hands it to `handleMessage`. -/
def handleSourceMessagesLoop : List Message → GUI → GUI
  | [], st => { st with inputMessageQueue := [] }
  | message :: rest, st =>
    handleSourceMessagesLoop rest (handleMessage message { st with inputMessageQueue := rest }).2

/-- `UDPSourceGUI::handleSourceMessages`. -/
def handleSourceMessages (st : GUI) : GUI :=
  handleSourceMessagesLoop st.inputMessageQueue st

/-! ## Edit slots -/

/-- `UDPSourceGUI::setCenterFrequency`. -/
def setCenterFrequency (centerFrequency : Int) (st : GUI) : GUI :=
  applySettings false
    { st with channelMarker := { st.channelMarker with centerFrequency := centerFrequency } }

/-- `UDPSourceGUI::channelMarkerChangedByCursor`. -/
def channelMarkerChangedByCursor (st : GUI) : GUI :=
  let st1 := { st with ui := { st.ui with deltaFrequency := st.channelMarker.centerFrequency } }
  let st2 := { st1 with settings := { st1.settings with
    inputFrequencyOffset := st1.channelMarker.centerFrequency } }
  applySettings false st2

/-- `UDPSourceGUI::on_deltaFrequency_changed`. -/
def on_deltaFrequency_changed (value : Int) (st : GUI) : GUI :=
  let st1 := { st with settings := { st.settings with inputFrequencyOffset := value } }
  let st2 := { st1 with channelMarker := { st1.channelMarker with centerFrequency := value } }
  applySettings false st2

/-- `UDPSourceGUI::setSampleFormat`. -/
def setSampleFormat (index : Int) (st : GUI) : GUI :=
  if index = 1 then
    { st with settings := { st.settings with sampleFormat := .FormatNFM },
              ui := { st.ui with fmDeviationEnabled := true, stereoInputEnabled := true } }
  else if index = 2 then
    { st with settings := { st.settings with sampleFormat := .FormatLSB },
              ui := { st.ui with fmDeviationEnabled := false, stereoInputEnabled := true } }
  else if index = 3 then
    { st with settings := { st.settings with sampleFormat := .FormatUSB },
              ui := { st.ui with fmDeviationEnabled := false, stereoInputEnabled := true } }
  else if index = 4 then
    { st with settings := { st.settings with sampleFormat := .FormatAM },
              ui := { st.ui with fmDeviationEnabled := false, stereoInputEnabled := true } }
  else
    { st with settings := { st.settings with sampleFormat := .FormatSnLE },
              ui := { st.ui with fmDeviationEnabled := false, stereoInput := true,
                                 stereoInputEnabled := false } }

/-- `UDPSourceGUI::on_sampleFormat_currentIndexChanged`; `FormatNFM` has index 1 and
`FormatAM` index 4. -/
def on_sampleFormat_currentIndexChanged (index : Int) (st : GUI) : GUI :=
  let st1 := { st with ui := { st.ui with fmDeviationEnabled := decide (index = 1) } }
  let st2 := { st1 with ui := { st1.ui with amModPercentEnabled := decide (index = 4) } }
  let st3 := setSampleFormat index st2
  { st3 with ui := { st3.ui with applyBtnEnabled := true } }

/-- `UDPSourceGUI::on_localUDPAddress_editingFinished`. -/
def on_localUDPAddress_editingFinished (st : GUI) : GUI :=
  let st1 := { st with settings := { st.settings with udpAddress := st.ui.localUDPAddress } }
  { st1 with ui := { st1.ui with applyBtnEnabled := true } }

/-- `UDPSourceGUI::on_localUDPPort_editingFinished`.  `toInt` yields 0 together with
`ok = false`; the result is stored in a `quint16` before it is tested. -/
def on_localUDPPort_editingFinished (st : GUI) : GUI :=
  let ok := st.ui.localUDPPort.isSome
  let udpPort := toQuint16 (st.ui.localUDPPort.getD 0)
  let udpPort := if (!ok) || decide (udpPort < 1024) then 9998 else udpPort
  let st1 := { st with settings := { st.settings with udpPort := udpPort } }
  let st2 := { st1 with ui := { st1.ui with localUDPPort := some st1.settings.udpPort } }
  { st2 with ui := { st2.ui with applyBtnEnabled := true } }

/-- `UDPSourceGUI::on_sampleRate_textEdited`. -/
def on_sampleRate_textEdited (st : GUI) : GUI :=
  let ok := st.ui.sampleRate.isSome
  let inputSampleRate := st.ui.sampleRate.getD 0
  let st1 :=
    if (!ok) || decide (inputSampleRate < 1000) then
      let st1 := { st with settings := { st.settings with inputSampleRate := 48000 } }
      { st1 with ui := { st1.ui with sampleRate := some st1.settings.inputSampleRate } }
    else
      { st with settings := { st.settings with inputSampleRate := inputSampleRate } }
  { st1 with ui := { st1.ui with applyBtnEnabled := true } }

/-- `UDPSourceGUI::on_rfBandwidth_textEdited`. -/
def on_rfBandwidth_textEdited (st : GUI) : GUI :=
  let ok := st.ui.rfBandwidth.isSome
  let rfBandwidth := st.ui.rfBandwidth.getD 0
  let st1 :=
    if (!ok) || decide (rfBandwidth > st.settings.inputSampleRate) then
      let st1 := { st with settings := { st.settings with
        rfBandwidth := st.settings.inputSampleRate } }
      { st1 with ui := { st1.ui with rfBandwidth := some st1.settings.rfBandwidth } }
    else
      { st with settings := { st.settings with rfBandwidth := rfBandwidth } }
  let st2 := { st1 with rfBandwidthChanged := true }
  { st2 with ui := { st2.ui with applyBtnEnabled := true } }

/-- `UDPSourceGUI::on_fmDeviation_textEdited`. -/
def on_fmDeviation_textEdited (st : GUI) : GUI :=
  let ok := st.ui.fmDeviation.isSome
  let fmDeviation := st.ui.fmDeviation.getD 0
  let st1 :=
    if (!ok) || decide (fmDeviation < 1) then
      let st1 := { st with settings := { st.settings with fmDeviation := 2500 } }
      { st1 with ui := { st1.ui with fmDeviation := some st1.settings.fmDeviation } }
    else
      { st with settings := { st.settings with fmDeviation := fmDeviation } }
  { st1 with ui := { st1.ui with applyBtnEnabled := true } }

/-- `UDPSourceGUI::on_amModPercent_textEdited`. -/
def on_amModPercent_textEdited (st : GUI) : GUI :=
  let ok := st.ui.amModPercent.isSome
  let amModPercent := st.ui.amModPercent.getD 0
  let st1 :=
    if (!ok) || decide (amModPercent < 1) || decide (amModPercent > 100) then
      let st1 := { st with settings := { st.settings with amModFactor := 95 / 100 } }
      { st1 with ui := { st1.ui with amModPercent := some 95 } }
    else
      { st with settings := { st.settings with amModFactor := (amModPercent : ℚ) / 100 } }
  { st1 with ui := { st1.ui with applyBtnEnabled := true } }

/-- `UDPSourceGUI::on_gainIn_valueChanged`. -/
def on_gainIn_valueChanged (value : Int) (st : GUI) : GUI :=
  let st1 := { st with settings := { st.settings with gainIn := (value : ℚ) / 10 } }
  let st2 := { st1 with ui := { st1.ui with gainInText := st1.settings.gainIn } }
  applySettings false st2

/-- `UDPSourceGUI::on_gainOut_valueChanged`. -/
def on_gainOut_valueChanged (value : Int) (st : GUI) : GUI :=
  let st1 := { st with settings := { st.settings with gainOut := (value : ℚ) / 10 } }
  let st2 := { st1 with ui := { st1.ui with gainOutText := st1.settings.gainOut } }
  applySettings false st2

/-- `UDPSourceGUI::on_squelch_valueChanged`. -/
def on_squelch_valueChanged (value : Int) (st : GUI) : GUI :=
  let st1 := { st with settings := { st.settings with squelchEnabled := decide (value ≠ -100) } }
  let st2 := { st1 with settings := { st1.settings with squelch := (value : ℚ) * 1 } }
  let st3 := { st2 with ui := { st2.ui with
    squelchText := if st2.settings.squelchEnabled then some st2.settings.squelch else none } }
  applySettings false st3

/-- `UDPSourceGUI::on_squelchGate_valueChanged`. -/
def on_squelchGate_valueChanged (value : Int) (st : GUI) : GUI :=
  let st1 := { st with settings := { st.settings with squelchGate := (value : ℚ) / 100 } }
  let st2 := { st1 with ui := { st1.ui with squelchGateText := roundf ((value : ℚ) * 10) } }
  applySettings false st2

/-- `UDPSourceGUI::on_channelMute_toggled`. -/
def on_channelMute_toggled (checked : Bool) (st : GUI) : GUI :=
  applySettings false { st with settings := { st.settings with channelMute := checked } }

/-- `UDPSourceGUI::on_applyBtn_clicked`. -/
def on_applyBtn_clicked (st : GUI) : GUI :=
  let st1 :=
    if st.rfBandwidthChanged then
      let st1 := { st with channelMarker := { st.channelMarker with
        bandwidth := st.settings.rfBandwidth } }
      { st1 with rfBandwidthChanged := false }
    else st
  let st2 := { st1 with ui := { st1.ui with
    glSpectrumSampleRate := st1.settings.inputSampleRate } }
  applySettings false st2

/-- `UDPSourceGUI::on_resetUDPReadIndex_clicked`. -/
def on_resetUDPReadIndex_clicked (st : GUI) : GUI :=
  { st with resetReadIndexCount := st.resetReadIndexCount + 1 }

/-- `UDPSourceGUI::on_autoRWBalance_toggled`. -/
def on_autoRWBalance_toggled (checked : Bool) (st : GUI) : GUI :=
  applySettings false { st with settings := { st.settings with autoRWBalance := checked } }

/-- `UDPSourceGUI::on_stereoInput_toggled`. -/
def on_stereoInput_toggled (checked : Bool) (st : GUI) : GUI :=
  applySettings false { st with settings := { st.settings with stereoInput := checked } }

/-- `UDPSourceGUI::onMenuDialogCalled`, after the dialog has left `marker` behind. -/
def onMenuDialogCalled (marker : ChannelMarker) (st : GUI) : GUI :=
  let st1 := { st with channelMarker := marker }
  let st2 := { st1 with settings := { st1.settings with
    inputFrequencyOffset := st1.channelMarker.centerFrequency } }
  let st3 := { st2 with settings := { st2.settings with rgbColor := st2.channelMarker.color } }
  applySettings false st3

/-- `UDPSourceGUI::leaveEvent`. -/
def leaveEvent (st : GUI) : GUI :=
  { st with channelMarker := { st.channelMarker with highlighted := false } }

/-- `UDPSourceGUI::enterEvent`. -/
def enterEvent (st : GUI) : GUI :=
  { st with channelMarker := { st.channelMarker with highlighted := true } }

/-! ## Tick -/

/-- The argument of `bufferGaugeNegative->setValue` in `tick`. -/
def bufferGaugeNegative (bufferGauge : Int) : Int :=
  if bufferGauge < 0 then wrapInt32 (-bufferGauge) else 0

/-- The argument of `bufferGaugePositive->setValue` in `tick`. -/
def bufferGaugePositive (bufferGauge : Int) : Int :=
  if bufferGauge < 0 then 0 else bufferGauge

/-- `UDPSourceGUI::tick`, given what the worker answers during it.  The counter
`m_tickCount` is an unsigned 32-bit integer. -/
def tick (env : Collaborators) (w : WorkerReadings) (st : GUI) : GUI :=
  let st1 := { st with channelPowerAvg := st.channelPowerAvg ++ [w.magSq] }
  let st2 := { st1 with inPowerAvg := st1.inPowerAvg ++ [w.inMagSq] }
  let st3 :=
    if st2.tickCount % 4 = 0 then
      let powDb := env.dbPower (env.asDouble st2.channelPowerAvg)
      let st3 := { st2 with ui := { st2.ui with channelPower := powDb } }
      let inPowDb := env.dbPower (env.asDouble st3.inPowerAvg)
      { st3 with ui := { st3.ui with inputPower := inPowDb } }
    else st2
  let bufferGauge := w.bufferGauge
  let st4 := { st3 with ui := { st3.ui with
    bufferGaugeNegative := bufferGaugeNegative bufferGauge } }
  let st5 := { st4 with ui := { st4.ui with
    bufferGaugePositive := bufferGaugePositive bufferGauge } }
  let st6 := { st5 with ui := { st5.ui with bufferRWBalanceText := bufferGauge } }
  let st7 := { st6 with ui := { st6.ui with channelMuteGreen := w.squelchOpen } }
  { st7 with tickCount := (st7.tickCount + 1) % 4294967296 }

/-- Runs `tick` once per reading, in order. -/
def ticks (env : Collaborators) : List WorkerReadings → GUI → GUI
  | [], st => st
  | w :: ws, st => ticks env ws (tick env w st)

/-! ## Construction -/

/-- The constructor `UDPSourceGUI::UDPSourceGUI`.  `ui0` is the display as the
widget set-up preceding the call of `displaySettings` leaves it, and
`workerQueue0` the worker's queue at that moment. -/
def create (env : Collaborators) (ui0 : Ui) (workerQueue0 : List Message) : GUI :=
  let st : GUI :=
    { settings := env.defaults
      doApplySettings := true
      rfBandwidthChanged := false
      tickCount := 0
      channelPowerAvg := []
      inPowerAvg := []
      channelMarker :=
        { centerFrequency := 0, bandwidth := 16000, color := env.defaults.rgbColor,
          visible := true, highlighted := false }
      ui := { ui0 with fmDeviationEnabled := false }
      workerQueue := workerQueue0
      inputMessageQueue := []
      resetReadIndexCount := 0 }
  applySettings true (displaySettings st)

/-! ## Edit events -/

/-- One user edit: the widget takes the new content, then its slot runs. -/
inductive Edit where
  | deltaFrequency (value : Int)
  | markerCursor (centerFrequency : Int)
  | sampleFormat (index : Int)
  | localUDPAddress (text : String)
  | localUDPPort (text : Option Int)
  | sampleRate (text : Option ℚ)
  | rfBandwidth (text : Option ℚ)
  | fmDeviation (text : Option Int)
  | amModPercent (text : Option Int)
  | gainIn (value : Int)
  | gainOut (value : Int)
  | squelch (value : Int)
  | squelchGate (value : Int)
  | channelMute (checked : Bool)
  | autoRWBalance (checked : Bool)
  | stereoInput (checked : Bool)
  | menuDialog (marker : ChannelMarker)
  | applyBtn
deriving DecidableEq, Repr

/-- The state after one edit event. -/
def applyEdit (e : Edit) (st : GUI) : GUI :=
  match e with
  | .deltaFrequency v =>
    on_deltaFrequency_changed v { st with ui := { st.ui with deltaFrequency := v } }
  | .markerCursor cf =>
    channelMarkerChangedByCursor
      { st with channelMarker := { st.channelMarker with centerFrequency := cf } }
  | .sampleFormat i =>
    on_sampleFormat_currentIndexChanged i { st with ui := { st.ui with sampleFormat := i } }
  | .localUDPAddress t =>
    on_localUDPAddress_editingFinished { st with ui := { st.ui with localUDPAddress := t } }
  | .localUDPPort t =>
    on_localUDPPort_editingFinished { st with ui := { st.ui with localUDPPort := t } }
  | .sampleRate t =>
    on_sampleRate_textEdited { st with ui := { st.ui with sampleRate := t } }
  | .rfBandwidth t =>
    on_rfBandwidth_textEdited { st with ui := { st.ui with rfBandwidth := t } }
  | .fmDeviation t =>
    on_fmDeviation_textEdited { st with ui := { st.ui with fmDeviation := t } }
  | .amModPercent t =>
    on_amModPercent_textEdited { st with ui := { st.ui with amModPercent := t } }
  | .gainIn v => on_gainIn_valueChanged v { st with ui := { st.ui with gainIn := v } }
  | .gainOut v => on_gainOut_valueChanged v { st with ui := { st.ui with gainOut := v } }
  | .squelch v => on_squelch_valueChanged v { st with ui := { st.ui with squelch := v } }
  | .squelchGate v =>
    on_squelchGate_valueChanged v { st with ui := { st.ui with squelchGate := v } }
  | .channelMute c => on_channelMute_toggled c { st with ui := { st.ui with channelMute := c } }
  | .autoRWBalance c =>
    on_autoRWBalance_toggled c { st with ui := { st.ui with autoRWBalance := c } }
  | .stereoInput c => on_stereoInput_toggled c { st with ui := { st.ui with stereoInput := c } }
  | .menuDialog m => onMenuDialogCalled m st
  | .applyBtn => on_applyBtn_clicked st

/-- The invariant `rfBandwidth ≤ inputSampleRate` of the settings aggregate. -/
def bandwidthWithinSampleRate (st : GUI) : Prop :=
  st.settings.rfBandwidth ≤ st.settings.inputSampleRate

instance (st : GUI) : Decidable (bandwidthWithinSampleRate st) :=
  inferInstanceAs (Decidable (_ ≤ _))

/-! ## Sample data -/

/-- A settings value used in the worked examples. -/
def sampleSettings : UDPSourceSettings :=
  { inputFrequencyOffset := 0, inputSampleRate := 48000, rfBandwidth := 12500,
    sampleFormat := .FormatSnLE, fmDeviation := 2500, amModFactor := 95 / 100,
    gainIn := 1, gainOut := 1, squelchEnabled := true, squelch := -50, squelchGate := 5 / 100,
    channelMute := false, autoRWBalance := true, stereoInput := false,
    udpAddress := "127.0.0.1", udpPort := 9998, rgbColor := 0 }

/-- A display value used in the worked examples. -/
def sampleUi : Ui :=
  { deltaFrequency := 0, sampleRate := some 48000, glSpectrumSampleRate := 0,
    rfBandwidth := some 12500, fmDeviation := some 2500, fmDeviationEnabled := false,
    amModPercent := some 95, amModPercentEnabled := false, sampleFormat := 0,
    channelMute := false, channelMuteGreen := false, autoRWBalance := true,
    stereoInput := false, stereoInputEnabled := true, gainInText := 1, gainIn := 10,
    gainOutText := 1, gainOut := 10, squelchText := none, squelch := -50,
    squelchGateText := 50, squelchGate := 5, localUDPAddress := "127.0.0.1",
    localUDPPort := some 9998, applyBtnEnabled := false, channelPower := 0, inputPower := 0,
    bufferGaugeNegative := 0, bufferGaugePositive := 0, bufferRWBalanceText := 0 }

/-- Collaborators used in the worked examples: a decoder that rejects every
input and leaves a half-written aggregate behind. -/
def sampleEnv : Collaborators :=
  { defaults := sampleSettings
    settingsDeserialize := fun s _ => (false, { s with udpPort := 1, inputSampleRate := 7 })
    settingsSerialize := fun _ => []
    asDouble := fun xs => xs.sum
    dbPower := fun x => x }

/-- A controller state used in the worked examples. -/
def sampleGUI : GUI := create sampleEnv sampleUi []


/-! ## Frame lemmas -/

theorem applySettings_settings (f : Bool) (st : GUI) :
    (applySettings f st).settings = st.settings := by
  unfold applySettings
  split <;> rfl

theorem applySettings_blocked (f : Bool) (st : GUI) (h : st.doApplySettings = false) :
    applySettings f st = st := by
  simp [applySettings, h]

theorem displaySettings_workerQueue (st : GUI) :
    (displaySettings st).workerQueue = st.workerQueue := rfl

theorem displaySettings_settings (st : GUI) :
    (displaySettings st).settings = st.settings := rfl

theorem displaySettings_doApplySettings (st : GUI) :
    (displaySettings st).doApplySettings = true := rfl

/-- The sample rate the sample-rate slot commits, by what the widget text parses to. -/
theorem on_sampleRate_textEdited_inputSampleRate (st : GUI) :
    (on_sampleRate_textEdited st).settings.inputSampleRate =
      match st.ui.sampleRate with
      | none => 48000
      | some v => if v < 1000 then 48000 else v := by
  cases hr : st.ui.sampleRate with
  | none => simp [on_sampleRate_textEdited, hr]
  | some v =>
    by_cases h : v < 1000 <;> simp [on_sampleRate_textEdited, hr, h]

/-- The sample-rate slot does not touch the bandwidth. -/
theorem on_sampleRate_textEdited_rfBandwidth (st : GUI) :
    (on_sampleRate_textEdited st).settings.rfBandwidth = st.settings.rfBandwidth := by
  unfold on_sampleRate_textEdited
  simp only []
  split <;> rfl

/-- Claim C1.  A sample-rate edit with text `r`, from any prior state, commits
48000 when `r` does not parse or parses to a value below 1000, and otherwise
commits the parsed value. -/
theorem sampleRate_edit_commits (r : Option ℚ) (st : GUI) :
    (applyEdit (.sampleRate r) st).settings.inputSampleRate =
      match r with
      | none => 48000
      | some v => if v < 1000 then 48000 else v :=
  on_sampleRate_textEdited_inputSampleRate { st with ui := { st.ui with sampleRate := r } }

/-- What the bandwidth slot commits, by what the widget text parses to; the
sample rate is not touched. -/
theorem on_rfBandwidth_textEdited_settings (st : GUI) :
    (on_rfBandwidth_textEdited st).settings.rfBandwidth =
        (match st.ui.rfBandwidth with
          | none => st.settings.inputSampleRate
          | some b => min b st.settings.inputSampleRate) ∧
      (on_rfBandwidth_textEdited st).settings.inputSampleRate = st.settings.inputSampleRate := by
  cases hr : st.ui.rfBandwidth with
  | none => simp [on_rfBandwidth_textEdited, hr]
  | some b =>
    by_cases h : b > st.settings.inputSampleRate
    · have h1 : min b st.settings.inputSampleRate = st.settings.inputSampleRate :=
        min_eq_right (le_of_lt h)
      simp [on_rfBandwidth_textEdited, hr, h, h1]
    · have h1 : min b st.settings.inputSampleRate = b := min_eq_left (not_lt.mp h)
      simp [on_rfBandwidth_textEdited, hr, h, h1]

/-- Claim C2.  A bandwidth edit with numeric value `b`, in a state whose sample
rate is `s`, commits `min b s` as the bandwidth and leaves the sample rate as it was. -/
theorem rfBandwidth_edit_commits_min (b : ℚ) (st : GUI) :
    (applyEdit (.rfBandwidth (some b)) st).settings.rfBandwidth =
        min b st.settings.inputSampleRate ∧
      (applyEdit (.rfBandwidth (some b)) st).settings.inputSampleRate =
        st.settings.inputSampleRate :=
  on_rfBandwidth_textEdited_settings { st with ui := { st.ui with rfBandwidth := some b } }

/-- The port committed by a port edit, for every parse outcome: the parsed
number is first reduced modulo 65536, and only then compared with 1024. -/
theorem localUDPPort_edit_commits (p : Option Int) (st : GUI) :
    (applyEdit (.localUDPPort p) st).settings.udpPort =
      match p with
      | none => 9998
      | some v => if toQuint16 v < 1024 then 9998 else toQuint16 v := by
  cases p with
  | none => simp [applyEdit, on_localUDPPort_editingFinished]
  | some v =>
    by_cases h : toQuint16 v < 1024 <;> simp [applyEdit, on_localUDPPort_editingFinished, h]

/-- Claim C3 (evaluation at the failing inputs).  A port edit of `-1` commits
65535 and a port edit of `70000` commits 4464, whatever the prior state. -/
theorem localUDPPort_edit_wraps (st : GUI) :
    (applyEdit (.localUDPPort (some (-1))) st).settings.udpPort = 65535 ∧
      (applyEdit (.localUDPPort (some 70000)) st).settings.udpPort = 4464 := by
  constructor <;> rw [localUDPPort_edit_commits] <;> decide

/-- A port edit whose parsed number lies in `[1024, 65535]` commits that number. -/
theorem localUDPPort_edit_in_range (v : Int) (st : GUI) (hlo : 1024 ≤ v) (hhi : v ≤ 65535) :
    ((applyEdit (.localUDPPort (some v)) st).settings.udpPort : Int) = v := by
  have hq : ((toQuint16 v : Nat) : Int) = v := by
    unfold toQuint16
    rw [Int.toNat_of_nonneg (Int.emod_nonneg _ (by norm_num))]
    exact Int.emod_eq_of_lt (by omega) (by omega)
  have hge : ¬ toQuint16 v < 1024 := by
    intro hlt
    have : ((toQuint16 v : Nat) : Int) < 1024 := by exact_mod_cast hlt
    omega
  rw [localUDPPort_edit_commits]
  simp [hge, hq]

/-! ## Apply and echo -/

/-- Claim C4.  With the apply guard enabled, `applySettings f` appends exactly
two messages to the worker queue: the channelizer message with the current sample
rate and frequency offset, then the settings message with the current settings
and `f`; the messages already queued stay in front, in place. -/
theorem applySettings_enqueues_pair (f : Bool) (st : GUI) (h : st.doApplySettings = true) :
    (applySettings f st).workerQueue =
      st.workerQueue ++
        [Message.MsgConfigureChannelizer st.settings.inputSampleRate
            st.settings.inputFrequencyOffset,
          Message.MsgConfigureUDPSource st.settings f] := by
  simp [applySettings, h]

theorem applySettings_enqueues_pair_witness :
    sampleGUI.doApplySettings = true ∧
      (applySettings false sampleGUI).workerQueue =
        sampleGUI.workerQueue ++
          [Message.MsgConfigureChannelizer sampleGUI.settings.inputSampleRate
              sampleGUI.settings.inputFrequencyOffset,
            Message.MsgConfigureUDPSource sampleGUI.settings false] :=
  ⟨rfl, applySettings_enqueues_pair false sampleGUI rfl⟩

/-- Claim C7 (evaluation at the failing input).  In a state with bandwidth 12500
and sample rate 48000 the invariant holds; after a sample-rate edit of `1000`
the sample rate is 1000, the bandwidth is still 12500, and the invariant is broken. -/
theorem sampleRate_edit_breaks_bandwidth_bound :
    bandwidthWithinSampleRate sampleGUI ∧
      (applyEdit (.sampleRate (some 1000)) sampleGUI).settings.inputSampleRate = 1000 ∧
      (applyEdit (.sampleRate (some 1000)) sampleGUI).settings.rfBandwidth = 12500 ∧
      ¬ bandwidthWithinSampleRate (applyEdit (.sampleRate (some 1000)) sampleGUI) := by
  have h0 : sampleGUI.settings = sampleSettings := by
    simp [sampleGUI, create, applySettings_settings, displaySettings_settings, sampleEnv]
  have h1 : (applyEdit (.sampleRate (some 1000)) sampleGUI).settings.inputSampleRate = 1000 := by
    simp only [applyEdit]
    rw [on_sampleRate_textEdited_inputSampleRate]
    norm_num
  have h2 : (applyEdit (.sampleRate (some 1000)) sampleGUI).settings.rfBandwidth = 12500 := by
    simp only [applyEdit]
    rw [on_sampleRate_textEdited_rfBandwidth]
    show sampleGUI.settings.rfBandwidth = 12500
    rw [h0]
    rfl
  refine ⟨?_, h1, h2, ?_⟩
  · unfold bandwidthWithinSampleRate
    rw [h0]
    norm_num [sampleSettings]
  · unfold bandwidthWithinSampleRate
    rw [h1, h2]
    norm_num

/-- Every edit other than a sample-rate edit keeps `rfBandwidth ≤ inputSampleRate`. -/
theorem other_edits_keep_bandwidth_bound (e : Edit) (st : GUI)
    (hne : ∀ r, e ≠ .sampleRate r) (h : bandwidthWithinSampleRate st) :
    bandwidthWithinSampleRate (applyEdit e st) := by
  unfold bandwidthWithinSampleRate at *
  cases e with
  | sampleRate r => exact absurd rfl (hne r)
  | rfBandwidth t =>
    obtain ⟨hb, hs⟩ :=
      on_rfBandwidth_textEdited_settings { st with ui := { st.ui with rfBandwidth := t } }
    simp only [applyEdit]
    rw [hb, hs]
    cases t with
    | none => exact le_refl _
    | some b => exact min_le_right _ _
  | sampleFormat i =>
    simp only [applyEdit, on_sampleFormat_currentIndexChanged, setSampleFormat]
    split_ifs <;> exact h
  | localUDPPort t => simpa [applyEdit, on_localUDPPort_editingFinished] using h
  | fmDeviation t =>
    simp only [applyEdit, on_fmDeviation_textEdited]
    split_ifs <;> exact h
  | amModPercent t =>
    simp only [applyEdit, on_amModPercent_textEdited]
    split_ifs <;> exact h
  | applyBtn =>
    simp only [applyEdit, on_applyBtn_clicked, applySettings_settings]
    split_ifs <;> exact h
  | _ =>
    simpa [applyEdit, on_deltaFrequency_changed, channelMarkerChangedByCursor,
      on_localUDPAddress_editingFinished, on_gainIn_valueChanged, on_gainOut_valueChanged,
      on_squelch_valueChanged, on_squelchGate_valueChanged, on_channelMute_toggled,
      on_autoRWBalance_toggled, on_stereoInput_toggled, onMenuDialogCalled,
      applySettings_settings] using h


/-! ## AM percent edit -/

/-- Claim C8.  An AM percent edit with text `t` commits 0.95 when `t` does not
parse or parses outside `[1, 100]`, and otherwise commits the parsed integer
divided by 100; so `150` gives 0.95 and `30` gives 0.30.  The committed factor
always lies in `(0, 1]`. -/
theorem amModPercent_edit_commits (t : Option Int) (st : GUI) :
    ((applyEdit (.amModPercent t) st).settings.amModFactor =
        match t with
        | none => 95 / 100
        | some p => if p < 1 ∨ p > 100 then 95 / 100 else (p : ℚ) / 100) ∧
      (applyEdit (.amModPercent (some 150)) st).settings.amModFactor = 95 / 100 ∧
      (applyEdit (.amModPercent (some 30)) st).settings.amModFactor = 30 / 100 ∧
      0 < (applyEdit (.amModPercent t) st).settings.amModFactor ∧
      (applyEdit (.amModPercent t) st).settings.amModFactor ≤ 1 := by
  have key : ∀ u : Option Int, (applyEdit (.amModPercent u) st).settings.amModFactor =
      match u with
      | none => 95 / 100
      | some p => if p < 1 ∨ p > 100 then 95 / 100 else (p : ℚ) / 100 := by
    intro u
    cases u with
    | none => simp [applyEdit, on_amModPercent_textEdited]
    | some p =>
      by_cases h1 : p < 1
      · simp [applyEdit, on_amModPercent_textEdited, h1]
      · by_cases h2 : p > 100
        · simp [applyEdit, on_amModPercent_textEdited, h2]
        · simp [applyEdit, on_amModPercent_textEdited, h1, h2]
  refine ⟨key t, ?_, ?_, ?_, ?_⟩
  · rw [key]; norm_num
  · rw [key]; norm_num
  · rw [key]
    cases t with
    | none => norm_num
    | some p =>
      by_cases h : p < 1 ∨ p > 100
      · simp only [h, if_true]; norm_num
      · simp only [h, if_false]
        have hp : (1 : ℚ) ≤ (p : ℚ) := by
          have : 1 ≤ p := by omega
          exact_mod_cast this
        positivity
  · rw [key]
    cases t with
    | none => norm_num
    | some p =>
      by_cases h : p < 1 ∨ p > 100
      · simp only [h, if_true]; norm_num
      · simp only [h, if_false]
        have hp : (p : ℚ) ≤ 100 := by
          have : p ≤ 100 := by omega
          exact_mod_cast this
        rw [div_le_one (by norm_num)]
        exact hp

/-! ## Buffer gauge -/

theorem wrapInt32_of_range (v : Int) (hlo : -2147483648 ≤ v) (hhi : v < 2147483648) :
    wrapInt32 v = v := by
  unfold wrapInt32
  rw [Int.emod_eq_of_lt (by omega) (by omega)]
  omega

theorem tick_bufferGauge_display (env : Collaborators) (w : WorkerReadings) (st : GUI) :
    (tick env w st).ui.bufferGaugeNegative = bufferGaugeNegative w.bufferGauge ∧
      (tick env w st).ui.bufferGaugePositive = bufferGaugePositive w.bufferGauge := by
  constructor <;> rfl

/-- At the least `int32_t` value the negation wraps: the under-run shown is negative. -/
theorem bufferGaugeNegative_least :
    bufferGaugeNegative (-2147483648) = -2147483648 := by
  decide

/-- Claim C9 (as stated, refuted).  For a gauge of 0 the tick displays 0 as
under-run and 0 as over-run, so it is not the case that exactly one of the two
is non-zero. -/
theorem bufferGauge_zero_none_nonzero :
    (tick sampleEnv ⟨0, 0, 0, false⟩ sampleGUI).ui.bufferGaugeNegative = 0 ∧
      (tick sampleEnv ⟨0, 0, 0, false⟩ sampleGUI).ui.bufferGaugePositive = 0 ∧
      ¬ (((tick sampleEnv ⟨0, 0, 0, false⟩ sampleGUI).ui.bufferGaugeNegative ≠ 0 ∧
            (tick sampleEnv ⟨0, 0, 0, false⟩ sampleGUI).ui.bufferGaugePositive = 0) ∨
          ((tick sampleEnv ⟨0, 0, 0, false⟩ sampleGUI).ui.bufferGaugeNegative = 0 ∧
            (tick sampleEnv ⟨0, 0, 0, false⟩ sampleGUI).ui.bufferGaugePositive ≠ 0)) := by
  obtain ⟨hn, hp⟩ := tick_bufferGauge_display sampleEnv ⟨0, 0, 0, false⟩ sampleGUI
  have hn0 : (tick sampleEnv ⟨0, 0, 0, false⟩ sampleGUI).ui.bufferGaugeNegative = 0 := by
    rw [hn]; decide
  have hp0 : (tick sampleEnv ⟨0, 0, 0, false⟩ sampleGUI).ui.bufferGaugePositive = 0 := by
    rw [hp]; decide
  refine ⟨hn0, hp0, ?_⟩
  rw [hn0, hp0]
  simp

/-- Claim C9 (amended).  For every gauge `g` with `-2^31 < g < 2^31`, the tick
displays under-run `-g` and over-run `0` when `g < 0`, and under-run `0` and
over-run `g` otherwise; both displayed values are non-negative, at most one of
them is non-zero, and exactly one is non-zero precisely when `g ≠ 0`. -/
theorem bufferGauge_split (env : Collaborators) (w : WorkerReadings) (st : GUI)
    (hlo : -2147483648 < w.bufferGauge) (hhi : w.bufferGauge < 2147483648) :
    (tick env w st).ui.bufferGaugeNegative = (if w.bufferGauge < 0 then -w.bufferGauge else 0) ∧
      (tick env w st).ui.bufferGaugePositive = (if w.bufferGauge < 0 then 0 else w.bufferGauge) ∧
      0 ≤ (tick env w st).ui.bufferGaugeNegative ∧
      0 ≤ (tick env w st).ui.bufferGaugePositive ∧
      ((tick env w st).ui.bufferGaugeNegative = 0 ∨ (tick env w st).ui.bufferGaugePositive = 0) ∧
      (w.bufferGauge ≠ 0 ↔
        (((tick env w st).ui.bufferGaugeNegative ≠ 0 ∧
            (tick env w st).ui.bufferGaugePositive = 0) ∨
          ((tick env w st).ui.bufferGaugeNegative = 0 ∧
            (tick env w st).ui.bufferGaugePositive ≠ 0))) := by
  obtain ⟨hn, hp⟩ := tick_bufferGauge_display env w st
  rw [hn, hp]
  unfold bufferGaugeNegative bufferGaugePositive
  by_cases hg : w.bufferGauge < 0
  · have hw : wrapInt32 (-w.bufferGauge) = -w.bufferGauge :=
      wrapInt32_of_range _ (by omega) (by omega)
    rw [hw]
    simp only [hg, if_true]
    refine ⟨trivial, trivial, by omega, le_refl _, Or.inr trivial, ?_⟩
    constructor
    · intro _
      exact Or.inl ⟨by omega, trivial⟩
    · intro _
      omega
  · simp only [hg, if_false]
    refine ⟨trivial, trivial, le_refl _, by omega, Or.inl trivial, ?_⟩
    constructor
    · intro hne
      exact Or.inr ⟨trivial, hne⟩
    · rintro (⟨h1, _⟩ | ⟨_, h2⟩)
      · exact absurd rfl h1
      · exact h2

theorem bufferGauge_split_witness :
    (-2147483648 : Int) < -5 ∧ (-5 : Int) < 2147483648 ∧
      (tick sampleEnv ⟨0, 0, -5, false⟩ sampleGUI).ui.bufferGaugeNegative = 5 ∧
      (tick sampleEnv ⟨0, 0, -5, false⟩ sampleGUI).ui.bufferGaugePositive = 0 ∧
      (tick sampleEnv ⟨0, 0, 3, false⟩ sampleGUI).ui.bufferGaugeNegative = 0 ∧
      (tick sampleEnv ⟨0, 0, 3, false⟩ sampleGUI).ui.bufferGaugePositive = 3 := by
  have h5 := bufferGauge_split sampleEnv ⟨0, 0, -5, false⟩ sampleGUI (by decide) (by decide)
  have h3 := bufferGauge_split sampleEnv ⟨0, 0, 3, false⟩ sampleGUI (by decide) (by decide)
  refine ⟨by decide, by decide, ?_, ?_, ?_, ?_⟩
  · rw [h5.1]; decide
  · rw [h5.2.1]; decide
  · rw [h3.1]; decide
  · rw [h3.2.1]; decide


/-! ## Tick decimation -/

theorem tick_tickCount (env : Collaborators) (w : WorkerReadings) (st : GUI) :
    (tick env w st).tickCount = (st.tickCount + 1) % 4294967296 := by
  unfold tick
  simp only []
  split <;> rfl

theorem tick_channelPowerAvg (env : Collaborators) (w : WorkerReadings) (st : GUI) :
    (tick env w st).channelPowerAvg = st.channelPowerAvg ++ [w.magSq] ∧
      (tick env w st).inPowerAvg = st.inPowerAvg ++ [w.inMagSq] := by
  unfold tick
  simp only []
  split <;> exact ⟨rfl, rfl⟩

/-- On a tick whose pre-tick counter is not a multiple of 4 both power readouts keep
their value; on a multiple of 4 both are rewritten from the just-updated averages. -/
theorem tick_readouts (env : Collaborators) (w : WorkerReadings) (st : GUI) :
    ((tick env w st).ui.channelPower, (tick env w st).ui.inputPower) =
      if st.tickCount % 4 = 0 then
        (env.dbPower (env.asDouble (st.channelPowerAvg ++ [w.magSq])),
          env.dbPower (env.asDouble (st.inPowerAvg ++ [w.inMagSq])))
      else (st.ui.channelPower, st.ui.inputPower) := by
  unfold tick
  simp only []
  split <;> rfl

/-- Claim C10.  From a freshly constructed controller and any eight readings,
after `k` ticks (`k = 0, …, 8`) the counter is `k` and each average has been fed
exactly the first `k` samples; tick number `k` (`k = 0, …, 7`) rewrites the two
power readouts when `k % 4 = 0`, that is on ticks 0 and 4, and leaves them as
they were on every other tick. -/
theorem eight_ticks_decimation (env : Collaborators) (ui0 : Ui) (q0 : List Message)
    (w0 w1 w2 w3 w4 w5 w6 w7 : WorkerReadings) :
    (create env ui0 q0).tickCount = 0 ∧
      (∀ k : Fin 9,
        (ticks env ([w0, w1, w2, w3, w4, w5, w6, w7].take k.val) (create env ui0 q0)).tickCount = k.val ∧
        (ticks env ([w0, w1, w2, w3, w4, w5, w6, w7].take k.val) (create env ui0 q0)).channelPowerAvg =
          ([w0, w1, w2, w3, w4, w5, w6, w7].take k.val).map WorkerReadings.magSq ∧
        (ticks env ([w0, w1, w2, w3, w4, w5, w6, w7].take k.val) (create env ui0 q0)).inPowerAvg =
          ([w0, w1, w2, w3, w4, w5, w6, w7].take k.val).map WorkerReadings.inMagSq) ∧
      (∀ k : Fin 8,
        ((ticks env ([w0, w1, w2, w3, w4, w5, w6, w7].take (k.val + 1)) (create env ui0 q0)).ui.channelPower,
          (ticks env ([w0, w1, w2, w3, w4, w5, w6, w7].take (k.val + 1)) (create env ui0 q0)).ui.inputPower) =
          if k.val = 0 ∨ k.val = 4 then
            (env.dbPower (env.asDouble
                (([w0, w1, w2, w3, w4, w5, w6, w7].take (k.val + 1)).map WorkerReadings.magSq)),
              env.dbPower (env.asDouble
                (([w0, w1, w2, w3, w4, w5, w6, w7].take (k.val + 1)).map WorkerReadings.inMagSq)))
          else
            ((ticks env ([w0, w1, w2, w3, w4, w5, w6, w7].take k.val) (create env ui0 q0)).ui.channelPower,
              (ticks env ([w0, w1, w2, w3, w4, w5, w6, w7].take k.val) (create env ui0 q0)).ui.inputPower)) := by
  have hc : (create env ui0 q0).tickCount = 0 := by
    unfold create applySettings
    simp only []
    split <;> rfl
  have ha : (create env ui0 q0).channelPowerAvg = [] ∧ (create env ui0 q0).inPowerAvg = [] := by
    unfold create applySettings
    simp only []
    split <;> exact ⟨rfl, rfl⟩
  refine ⟨hc, ?_, ?_⟩
  · intro k
    fin_cases k <;>
      simp [ticks, tick_tickCount, tick_channelPowerAvg, hc, ha]
  · intro k
    fin_cases k <;>
      simp [ticks, tick_readouts, tick_tickCount, tick_channelPowerAvg, hc, ha]

/-! ## Apply guard at rest -/

theorem applySettings_doApplySettings (f : Bool) (st : GUI) :
    (applySettings f st).doApplySettings = st.doApplySettings := by
  unfold applySettings
  split <;> rfl

theorem applyEdit_doApplySettings (e : Edit) (st : GUI) :
    (applyEdit e st).doApplySettings = st.doApplySettings := by
  cases e with
  | sampleFormat i =>
    simp only [applyEdit, on_sampleFormat_currentIndexChanged, setSampleFormat]
    split_ifs <;> rfl
  | localUDPPort t => rfl
  | localUDPAddress t => rfl
  | sampleRate t =>
    simp only [applyEdit, on_sampleRate_textEdited]
    split_ifs <;> rfl
  | rfBandwidth t =>
    simp only [applyEdit, on_rfBandwidth_textEdited]
    split_ifs <;> rfl
  | fmDeviation t =>
    simp only [applyEdit, on_fmDeviation_textEdited]
    split_ifs <;> rfl
  | amModPercent t =>
    simp only [applyEdit, on_amModPercent_textEdited]
    split_ifs <;> rfl
  | applyBtn =>
    simp only [applyEdit, on_applyBtn_clicked, applySettings_doApplySettings]
    split_ifs <;> rfl
  | _ =>
    simp [applyEdit, on_deltaFrequency_changed, channelMarkerChangedByCursor,
      on_gainIn_valueChanged, on_gainOut_valueChanged, on_squelch_valueChanged,
      on_squelchGate_valueChanged, on_channelMute_toggled, on_autoRWBalance_toggled,
      on_stereoInput_toggled, onMenuDialogCalled, applySettings_doApplySettings]

theorem tick_doApplySettings (env : Collaborators) (w : WorkerReadings) (st : GUI) :
    (tick env w st).doApplySettings = st.doApplySettings := by
  unfold tick
  simp only []
  split <;> rfl

theorem handleMessage_doApplySettings (m : Message) (st : GUI)
    (h : st.doApplySettings = true) : (handleMessage m st).2.doApplySettings = true := by
  cases m with
  | MsgConfigureUDPSource S f => rfl
  | MsgConfigureChannelizer r o => exact h
  | other k => exact h

theorem handleSourceMessagesLoop_doApplySettings (q : List Message) (st : GUI)
    (h : st.doApplySettings = true) :
    (handleSourceMessagesLoop q st).doApplySettings = true := by
  induction q generalizing st with
  | nil => exact h
  | cons m rest ih =>
    rw [handleSourceMessagesLoop]
    exact ih _ (handleMessage_doApplySettings m _ h)

theorem create_doApplySettings (env : Collaborators) (ui0 : Ui) (q0 : List Message) :
    (create env ui0 q0).doApplySettings = true := by
  unfold create
  simp only [applySettings_doApplySettings, displaySettings_doApplySettings]

theorem resetToDefaults_doApplySettings (env : Collaborators) (st : GUI) :
    (resetToDefaults env st).doApplySettings = true := by
  unfold resetToDefaults
  simp only [applySettings_doApplySettings, displaySettings_doApplySettings]

theorem deserialize_doApplySettings (env : Collaborators) (data : QByteArray) (st : GUI) :
    (deserialize env data st).2.doApplySettings = true := by
  unfold deserialize
  simp only []
  split
  · simp only [applySettings_doApplySettings, displaySettings_doApplySettings]
  · exact resetToDefaults_doApplySettings env _

/-- Claim C11.  The apply-enabled flag is true after construction, and every
public operation started with the flag true returns with the flag true: each
edit, `setCenterFrequency`, the read-index button, the enter and leave events,
`resetToDefaults`, `deserialize`, `handleMessage` on an echo and on any other
message, `handleSourceMessages`, `tick` and `displaySettings`.  The edits and
`tick` return the flag exactly as they found it, whatever its value; only the
display refresh and the echo handling, which disable it inside, write it, and
they return with it enabled even when entered with it disabled. -/
theorem doApplySettings_at_rest (env : Collaborators) (ui0 : Ui) (q0 : List Message)
    (st : GUI) (h : st.doApplySettings = true) :
    (create env ui0 q0).doApplySettings = true ∧
      (∀ e : Edit, (applyEdit e st).doApplySettings = true) ∧
      (∀ cf : Int, (setCenterFrequency cf st).doApplySettings = true) ∧
      (on_resetUDPReadIndex_clicked st).doApplySettings = true ∧
      (enterEvent st).doApplySettings = true ∧
      (leaveEvent st).doApplySettings = true ∧
      (resetToDefaults env st).doApplySettings = true ∧
      (∀ data : QByteArray, (deserialize env data st).2.doApplySettings = true) ∧
      (∀ (S : UDPSourceSettings) (f : Bool),
        (handleMessage (.MsgConfigureUDPSource S f) st).2.doApplySettings = true) ∧
      (∀ k : Nat, (handleMessage (.other k) st) = (false, st)) ∧
      (∀ m : Message, (handleMessage m st).2.doApplySettings = true) ∧
      (handleSourceMessages st).doApplySettings = true ∧
      (∀ w : WorkerReadings, (tick env w st).doApplySettings = true) ∧
      (displaySettings st).doApplySettings = true ∧
      (∀ (e : Edit) (s : GUI), (applyEdit e s).doApplySettings = s.doApplySettings) ∧
      (∀ (w : WorkerReadings) (s : GUI), (tick env w s).doApplySettings = s.doApplySettings) ∧
      (∀ (f : Bool) (s : GUI), (applySettings f s).doApplySettings = s.doApplySettings) ∧
      (∀ s : GUI, (blockApplySettings true s).doApplySettings = false ∧
        (displaySettings (blockApplySettings true s)).doApplySettings = true) ∧
      (∀ (S : UDPSourceSettings) (f : Bool) (s : GUI),
        (handleMessage (.MsgConfigureUDPSource S f) s).2.doApplySettings = true) := by
  refine ⟨create_doApplySettings env ui0 q0, ?_, ?_, h, h, h,
    resetToDefaults_doApplySettings env st, fun data => deserialize_doApplySettings env data st,
    fun _ _ => rfl, fun _ => rfl, fun m => handleMessage_doApplySettings m st h,
    handleSourceMessagesLoop_doApplySettings _ st h, ?_, rfl, applyEdit_doApplySettings,
    tick_doApplySettings env, applySettings_doApplySettings, fun _ => ⟨rfl, rfl⟩,
    fun _ _ _ => rfl⟩
  · intro e
    rw [applyEdit_doApplySettings, h]
  · intro cf
    unfold setCenterFrequency
    rw [applySettings_doApplySettings]
    exact h
  · intro w
    rw [tick_doApplySettings, h]

theorem doApplySettings_at_rest_witness :
    sampleGUI.doApplySettings = true ∧
      (applyEdit (.gainIn 12) sampleGUI).doApplySettings = true ∧
      (handleMessage (.MsgConfigureUDPSource sampleSettings false) sampleGUI).2.doApplySettings
        = true ∧
      (handleSourceMessages sampleGUI).doApplySettings = true ∧
      (tick sampleEnv ⟨0, 0, 3, false⟩ sampleGUI).doApplySettings = true :=
  have hw := doApplySettings_at_rest sampleEnv sampleUi [] sampleGUI
    (create_doApplySettings sampleEnv sampleUi [])
  ⟨create_doApplySettings sampleEnv sampleUi [], hw.2.1 (.gainIn 12),
    hw.2.2.2.2.2.2.2.2.1 sampleSettings false, hw.2.2.2.2.2.2.2.2.2.2.2.1,
    hw.2.2.2.2.2.2.2.2.2.2.2.2.1 ⟨0, 0, 3, false⟩⟩

end UDPSource
